import Mathlib

/-!
Verification of the `localkms` key management service
(`pkg/kms/localkms/localkms.go`).

The Go code is shallowly embedded: the Tink keyset library, the secret-lock
envelope AEAD and the storage provider are external collaborators; they are
modelled at the interface boundary the spec fixes (a keyset is a list of key
entries with material-type metadata; envelope sealing is an injective
container; the store is an association list whose `Put`/`Delete` calls may
fail with an I/O error, as their Go signatures allow). Store accesses are
logged in an event trace so that the order of `Put`/`Delete` calls inside an
operation is observable.
-/

namespace LocalKms

/-- Error taxonomy of the service (spec section 7); messages from the Go code. -/
inductive KmsError where
  | invalidInput (msg : String)
  | notFound (id : String)
  | conflict (id : String)
  | cryptoFailure (msg : String)
  | storageFailure (msg : String)
  deriving DecidableEq, Repr

/-- Tink key-material classification carried by every key's `KeyData`. -/
inductive KeyMaterialType where
  | symmetric
  | asymmetricPrivate
  | asymmetricPublic
  deriving DecidableEq, Repr

inductive HashType where
  | SHA256
  | SHA384
  | SHA512
  deriving DecidableEq, Repr

inductive EllipticCurveType where
  | NIST_P256
  | NIST_P384
  | NIST_P521
  deriving DecidableEq, Repr

inductive EcdsaSignatureEncoding where
  | DER
  | IEEE_P1363
  deriving DecidableEq, Repr

inductive OutputPrefixType where
  | TINK
  | RAW
  deriving DecidableEq, Repr

/-- `ecdsapb.EcdsaParams`: hash, curve and signature encoding. -/
structure EcdsaParams where
  hashType : HashType
  curve : EllipticCurveType
  encoding : EcdsaSignatureEncoding
  deriving DecidableEq, Repr

/-- The key format serialized into a template's `Value` field, as a tagged
variant over the algorithm families the resolver supports. -/
inductive KeyFormat where
  | ecdsa (params : EcdsaParams)
  | aesGCM (keySizeBytes : Nat)
  | chaCha20Poly1305
  | xChaCha20Poly1305
  | ed25519Format
  | hmacSHA256Tag256
  | ecdhesAES256GCM (curve : EllipticCurveType)
  | ecdh1puAES256GCM (curve : EllipticCurveType)
  deriving DecidableEq, Repr

/-- `tinkpb.KeyTemplate`: type URL, serialized key format, output prefix. -/
structure KeyTemplate where
  typeUrl : String
  format : KeyFormat
  outputPrefixType : OutputPrefixType
  deriving DecidableEq, Repr

/-- `localkms.go`: URL of Tink's ECDSA private-key type. -/
def ecdsaPrivateKeyTypeURL : String := "type.googleapis.com/google.crypto.tink.EcdsaPrivateKey"

/-- `kms.KeyType` is a Go string type. -/
abbrev KeyType := String

/-- Modelled from the spec: the `kms.KeyType` constants of `pkg/kms` (not under
`src/`) referenced by `getKeyTemplate`; distinct non-empty strings, one per
recognized key type. -/
def AES128GCMType : KeyType := "AES128GCM"

def AES256GCMNoPrefixType : KeyType := "AES256GCMNoPrefix"

def AES256GCMType : KeyType := "AES256GCM"

def ChaCha20Poly1305Type : KeyType := "ChaCha20Poly1305"

def XChaCha20Poly1305Type : KeyType := "XChaCha20Poly1305"

def ECDSAP256TypeDER : KeyType := "ECDSAP256DER"

def ECDSAP384TypeDER : KeyType := "ECDSAP384DER"

def ECDSAP521TypeDER : KeyType := "ECDSAP521DER"

def ECDSAP256TypeIEEEP1363 : KeyType := "ECDSAP256IEEEP1363"

def ECDSAP384TypeIEEEP1363 : KeyType := "ECDSAP384IEEEP1363"

def ECDSAP521TypeIEEEP1363 : KeyType := "ECDSAP521IEEEP1363"

def ED25519Type : KeyType := "ED25519"

def HMACSHA256Tag256Type : KeyType := "HMACSHA256Tag256"

def ECDHES256AES256GCMType : KeyType := "ECDHES256AES256GCM"

def ECDHES384AES256GCMType : KeyType := "ECDHES384AES256GCM"

def ECDHES521AES256GCMType : KeyType := "ECDHES521AES256GCM"

def ECDH1PU256AES256GCMType : KeyType := "ECDH1PU256AES256GCM"

def ECDH1PU384AES256GCMType : KeyType := "ECDH1PU384AES256GCM"

/-- Modelled from the spec: last of the `pkg/kms` key-type constants. -/
def ECDH1PU521AES256GCMType : KeyType := "ECDH1PU521AES256GCM"

/-- The recognized key types: exactly the cases of `getKeyTemplate`'s switch. -/
def recognizedKeyTypes : List KeyType :=
  [AES128GCMType, AES256GCMNoPrefixType, AES256GCMType, ChaCha20Poly1305Type,
   XChaCha20Poly1305Type, ECDSAP256TypeDER, ECDSAP384TypeDER, ECDSAP521TypeDER,
   ECDSAP256TypeIEEEP1363, ECDSAP384TypeIEEEP1363, ECDSAP521TypeIEEEP1363,
   ED25519Type, HMACSHA256Tag256Type, ECDHES256AES256GCMType,
   ECDHES384AES256GCMType, ECDHES521AES256GCMType, ECDH1PU256AES256GCMType,
   ECDH1PU384AES256GCMType, ECDH1PU521AES256GCMType]

/-- Modelled from the spec: `aead.AES128GCMKeyTemplate` of the Tink library
(external collaborator), TINK output prefix. -/
def AES128GCMKeyTemplate : KeyTemplate :=
  { typeUrl := "type.googleapis.com/google.crypto.tink.AesGcmKey"
    format := .aesGCM 16, outputPrefixType := .TINK }

/-- Modelled from the spec: `aead.AES256GCMNoPrefixKeyTemplate`, RAW prefix
(to support keys not generated by Tink). -/
def AES256GCMNoPrefixKeyTemplate : KeyTemplate :=
  { typeUrl := "type.googleapis.com/google.crypto.tink.AesGcmKey"
    format := .aesGCM 32, outputPrefixType := .RAW }

/-- Modelled from the spec: `aead.AES256GCMKeyTemplate`, TINK prefix. -/
def AES256GCMKeyTemplate : KeyTemplate :=
  { typeUrl := "type.googleapis.com/google.crypto.tink.AesGcmKey"
    format := .aesGCM 32, outputPrefixType := .TINK }

/-- Modelled from the spec: `aead.ChaCha20Poly1305KeyTemplate`. -/
def ChaCha20Poly1305KeyTemplate : KeyTemplate :=
  { typeUrl := "type.googleapis.com/google.crypto.tink.ChaCha20Poly1305Key"
    format := .chaCha20Poly1305, outputPrefixType := .TINK }

/-- Modelled from the spec: `aead.XChaCha20Poly1305KeyTemplate`. -/
def XChaCha20Poly1305KeyTemplate : KeyTemplate :=
  { typeUrl := "type.googleapis.com/google.crypto.tink.XChaCha20Poly1305Key"
    format := .xChaCha20Poly1305, outputPrefixType := .TINK }

/-- Modelled from the spec: `signature.ECDSAP256KeyWithoutPrefixTemplate` of
Tink — ASN.1/DER signature encoding, SHA-256 with P-256, RAW output prefix. -/
def ECDSAP256KeyWithoutPrefixTemplate : KeyTemplate :=
  { typeUrl := ecdsaPrivateKeyTypeURL
    format := .ecdsa { hashType := .SHA256, curve := .NIST_P256, encoding := .DER }
    outputPrefixType := .RAW }

/-- Modelled from the spec: `signature.ECDSAP384KeyWithoutPrefixTemplate` —
DER encoding, SHA-384 with P-384, RAW prefix. -/
def ECDSAP384KeyWithoutPrefixTemplate : KeyTemplate :=
  { typeUrl := ecdsaPrivateKeyTypeURL
    format := .ecdsa { hashType := .SHA384, curve := .NIST_P384, encoding := .DER }
    outputPrefixType := .RAW }

/-- Modelled from the spec: `signature.ECDSAP521KeyWithoutPrefixTemplate` —
DER encoding, SHA-512 with P-521, RAW prefix. -/
def ECDSAP521KeyWithoutPrefixTemplate : KeyTemplate :=
  { typeUrl := ecdsaPrivateKeyTypeURL
    format := .ecdsa { hashType := .SHA512, curve := .NIST_P521, encoding := .DER }
    outputPrefixType := .RAW }

/-- Modelled from the spec: `signature.ED25519KeyWithoutPrefixTemplate`. -/
def ED25519KeyWithoutPrefixTemplate : KeyTemplate :=
  { typeUrl := "type.googleapis.com/google.crypto.tink.Ed25519PrivateKey"
    format := .ed25519Format, outputPrefixType := .RAW }

/-- Modelled from the spec: `mac.HMACSHA256Tag256KeyTemplate`. -/
def HMACSHA256Tag256KeyTemplate : KeyTemplate :=
  { typeUrl := "type.googleapis.com/google.crypto.tink.HmacKey"
    format := .hmacSHA256Tag256, outputPrefixType := .TINK }

/-- Modelled from the spec: `ecdhes.ECDHES256KWAES256GCMKeyTemplate` of the
repository's composite primitives (not under `src/`). -/
def ECDHES256KWAES256GCMKeyTemplate : KeyTemplate :=
  { typeUrl := "type.hyperledger.org/hyperledger.aries.crypto.tink.EcdhesAeadPrivateKey"
    format := .ecdhesAES256GCM .NIST_P256, outputPrefixType := .RAW }

/-- Modelled from the spec: `ecdhes.ECDHES384KWAES256GCMKeyTemplate`. -/
def ECDHES384KWAES256GCMKeyTemplate : KeyTemplate :=
  { typeUrl := "type.hyperledger.org/hyperledger.aries.crypto.tink.EcdhesAeadPrivateKey"
    format := .ecdhesAES256GCM .NIST_P384, outputPrefixType := .RAW }

/-- Modelled from the spec: `ecdhes.ECDHES521KWAES256GCMKeyTemplate`. -/
def ECDHES521KWAES256GCMKeyTemplate : KeyTemplate :=
  { typeUrl := "type.hyperledger.org/hyperledger.aries.crypto.tink.EcdhesAeadPrivateKey"
    format := .ecdhesAES256GCM .NIST_P521, outputPrefixType := .RAW }

/-- Modelled from the spec: `ecdh1pu.ECDH1PU256KWAES256GCMKeyTemplate`. -/
def ECDH1PU256KWAES256GCMKeyTemplate : KeyTemplate :=
  { typeUrl := "type.hyperledger.org/hyperledger.aries.crypto.tink.Ecdh1puAeadPrivateKey"
    format := .ecdh1puAES256GCM .NIST_P256, outputPrefixType := .RAW }

/-- Modelled from the spec: `ecdh1pu.ECDH1PU384KWAES256GCMKeyTemplate`. -/
def ECDH1PU384KWAES256GCMKeyTemplate : KeyTemplate :=
  { typeUrl := "type.hyperledger.org/hyperledger.aries.crypto.tink.Ecdh1puAeadPrivateKey"
    format := .ecdh1puAES256GCM .NIST_P384, outputPrefixType := .RAW }

/-- Modelled from the spec: `ecdh1pu.ECDH1PU521KWAES256GCMKeyTemplate`. -/
def ECDH1PU521KWAES256GCMKeyTemplate : KeyTemplate :=
  { typeUrl := "type.hyperledger.org/hyperledger.aries.crypto.tink.Ecdh1puAeadPrivateKey"
    format := .ecdh1puAES256GCM .NIST_P521, outputPrefixType := .RAW }

/-- `createECDSAIEEE1363KeyTemplate` (localkms.go lines 209-223): ECDSA
template with IEEE_P1363 signature encoding and RAW output prefix; the
serialized `EcdsaKeyFormat` is kept structurally. -/
def createECDSAIEEE1363KeyTemplate (hashType : HashType) (curve : EllipticCurveType) : KeyTemplate :=
  { typeUrl := ecdsaPrivateKeyTypeURL
    format := .ecdsa { hashType := hashType, curve := curve, encoding := .IEEE_P1363 }
    outputPrefixType := .RAW }

/-- `getKeyTemplate` (localkms.go lines 159-207): the key-template resolver,
a switch over the recognized key types with an "unrecognized" default. -/
def getKeyTemplate (keyType : KeyType) : Except KmsError KeyTemplate :=
  if keyType = AES128GCMType then .ok AES128GCMKeyTemplate
  else if keyType = AES256GCMNoPrefixType then .ok AES256GCMNoPrefixKeyTemplate
  else if keyType = AES256GCMType then .ok AES256GCMKeyTemplate
  else if keyType = ChaCha20Poly1305Type then .ok ChaCha20Poly1305KeyTemplate
  else if keyType = XChaCha20Poly1305Type then .ok XChaCha20Poly1305KeyTemplate
  else if keyType = ECDSAP256TypeDER then .ok ECDSAP256KeyWithoutPrefixTemplate
  else if keyType = ECDSAP384TypeDER then .ok ECDSAP384KeyWithoutPrefixTemplate
  else if keyType = ECDSAP521TypeDER then .ok ECDSAP521KeyWithoutPrefixTemplate
  else if keyType = ECDSAP256TypeIEEEP1363 then
    .ok (createECDSAIEEE1363KeyTemplate .SHA256 .NIST_P256)
  else if keyType = ECDSAP384TypeIEEEP1363 then
    .ok (createECDSAIEEE1363KeyTemplate .SHA384 .NIST_P384)
  else if keyType = ECDSAP521TypeIEEEP1363 then
    .ok (createECDSAIEEE1363KeyTemplate .SHA512 .NIST_P521)
  else if keyType = ED25519Type then .ok ED25519KeyWithoutPrefixTemplate
  else if keyType = HMACSHA256Tag256Type then .ok HMACSHA256Tag256KeyTemplate
  else if keyType = ECDHES256AES256GCMType then .ok ECDHES256KWAES256GCMKeyTemplate
  else if keyType = ECDHES384AES256GCMType then .ok ECDHES384KWAES256GCMKeyTemplate
  else if keyType = ECDHES521AES256GCMType then .ok ECDHES521KWAES256GCMKeyTemplate
  else if keyType = ECDH1PU256AES256GCMType then .ok ECDH1PU256KWAES256GCMKeyTemplate
  else if keyType = ECDH1PU384AES256GCMType then .ok ECDH1PU384KWAES256GCMKeyTemplate
  else if keyType = ECDH1PU521AES256GCMType then .ok ECDH1PU521KWAES256GCMKeyTemplate
  else .error (.invalidInput "key type unrecognized")

/-- Key status inside a keyset (Tink `KeyStatusType`). -/
inductive KeyStatus where
  | enabled
  | disabled
  deriving DecidableEq, Repr

/-- Modelled from the spec: Tink `KeyData` at the interface boundary — type
URL, material classification and abstract key bytes; asymmetric-private
material also carries its derivable public component. -/
structure KeyData where
  typeUrl : String
  material : KeyMaterialType
  value : Nat
  pubValue : Option Nat
  deriving DecidableEq, Repr

/-- One entry of a keyset: key data, status and its local (in-keyset) key id. -/
structure KeyEntry where
  keyData : KeyData
  status : KeyStatus
  keyId : Nat
  deriving DecidableEq, Repr

/-- Modelled from the spec: a Tink keyset — an ordered sequence of entries
with one designated primary entry. -/
structure Keyset where
  primaryKeyId : Nat
  entries : List KeyEntry
  deriving DecidableEq, Repr

/-- The entry designated primary, found by its local key id. -/
def Keyset.primaryEntry (ks : Keyset) : Option KeyEntry :=
  ks.entries.find? (fun e => e.keyId = ks.primaryKeyId)

/-- Material classification a template's key format generates. -/
def KeyFormat.materialType : KeyFormat → KeyMaterialType
  | .ecdsa _ => .asymmetricPrivate
  | .aesGCM _ => .symmetric
  | .chaCha20Poly1305 => .symmetric
  | .xChaCha20Poly1305 => .symmetric
  | .ed25519Format => .asymmetricPrivate
  | .hmacSHA256Tag256 => .symmetric
  | .ecdhesAES256GCM _ => .asymmetricPrivate
  | .ecdh1puAES256GCM _ => .asymmetricPrivate

/-- Modelled from the spec: Tink key generation from a template, with `n` the
fresh randomness drawn for this key; asymmetric keys get a distinct public
component. -/
def newKeyData (t : KeyTemplate) (n : Nat) : KeyData :=
  { typeUrl := t.typeUrl
    material := t.format.materialType
    value := 2 * n
    pubValue := if t.format.materialType = .asymmetricPrivate then some (2 * n + 1) else none }

/-- A stored record: the envelope-sealed serialized keyset, modelled as an
injective container (same master key on write and read), or undecryptable
bytes (wrong master key / corruption), on which `keyset.Read` fails. -/
inductive Blob where
  | sealed (ks : Keyset)
  | corrupt
  deriving DecidableEq, Repr

/-- A store access, as issued to the external `storage.Store`. -/
inductive StoreEvent where
  | get (id : String)
  | put (id : String)
  | del (id : String)
  deriving DecidableEq, Repr

/-- State threaded through every operation: the store's association list, two
injected I/O-failure flags (the `storage.Store` interface lets `Put` and
`Delete` return errors), a counter supplying fresh ids and key randomness,
and the trace of store accesses. -/
structure KmsState where
  store : List (String × Blob)
  failPut : Bool := false
  failDelete : Bool := false
  nextId : Nat := 0
  events : List StoreEvent := []
  deriving DecidableEq, Repr

/-- The record currently held under `id`. -/
def storeLookup (st : KmsState) (id : String) : Option Blob :=
  (st.store.find? (fun p => p.1 = id)).map (·.2)

/-- Append one store access to the trace. -/
def logEvent (st : KmsState) (e : StoreEvent) : KmsState :=
  { st with events := st.events ++ [e] }

/-- `Store.Get`: read the record under `id`. -/
def storeGet (st : KmsState) (id : String) : Option Blob × KmsState :=
  (storeLookup st id, logEvent st (.get id))

/-- Drop the record under `id` from the association list. -/
def removeRecord (s : List (String × Blob)) (id : String) : List (String × Blob) :=
  s.filter (fun p => ¬ p.1 = id)

/-- `Store.Put`: write `b` under `id`, or fail with the injected I/O error. -/
def storePut (st : KmsState) (id : String) (b : Blob) : Except KmsError Unit × KmsState :=
  let st1 := logEvent st (.put id)
  if st.failPut then (.error (.storageFailure "store put failed"), st1)
  else (.ok (), { st1 with store := removeRecord st1.store id ++ [(id, b)] })

/-- `Store.Delete`: remove the record under `id`, or fail with the injected
I/O error. -/
def storeDelete (st : KmsState) (id : String) : Except KmsError Unit × KmsState :=
  let st1 := logEvent st (.del id)
  if st.failDelete then (.error (.storageFailure "store delete failed"), st1)
  else (.ok (), { st1 with store := removeRecord st1.store id })

/-- Modelled from the spec: the generated collision-resistant keyset id
(`newWriter`'s id generation lives in a repository file not under `src/`);
drawn deterministically from the fresh-value counter. -/
def genId (st : KmsState) : String := "gen_" ++ toString st.nextId

/-- `writeToStore` (localkms.go lines 237-247) together with the modelled
`storeWriter`: a caller-supplied id (the `WithKeyID` option) is first checked
for availability and the write fails with "ID already exists" if it is
occupied; otherwise a fresh id is generated. Returns the keyset id written. -/
def writeToStore (st : KmsState) (b : Blob) (optKeyID : Option String) :
    Except KmsError String × KmsState :=
  match optKeyID with
  | some kid =>
    match storeGet st kid with
    | (some _, st1) => (.error (.conflict kid), st1)
    | (none, st1) =>
      match storePut st1 kid b with
      | (.ok _, st2) => (.ok kid, st2)
      | (.error e, st2) => (.error e, st2)
  | none =>
    let kid := genId st
    let st1 := { st with nextId := st.nextId + 1 }
    match storePut st1 kid b with
    | (.ok _, st2) => (.ok kid, st2)
    | (.error e, st2) => (.error e, st2)

/-- `storeKeySet` (localkms.go lines 225-235): serialize and envelope-seal the
keyset handle, then write it to the store under a generated id. -/
def storeKeySet (st : KmsState) (ks : Keyset) : Except KmsError String × KmsState :=
  writeToStore st (.sealed ks) none

/-- `getKeySet` (localkms.go lines 249-261): read the record under `id` from
the store and decrypt it with the master-key envelope AEAD; absence is the
store's not-found error, undecryptable bytes a crypto failure. -/
def getKeySet (st : KmsState) (id : String) : Except KmsError Keyset × KmsState :=
  match storeGet st id with
  | (none, st1) => (.error (.notFound id), st1)
  | (some .corrupt, st1) => (.error (.cryptoFailure "keyset decryption failed"), st1)
  | (some (.sealed ks), st1) => (.ok ks, st1)

/-- `keyset.NewHandle(template)`: a fresh one-entry keyset whose single entry
is primary. -/
def newHandle (t : KeyTemplate) (st : KmsState) : Keyset × KmsState :=
  let e : KeyEntry := { keyData := newKeyData t st.nextId, status := .enabled, keyId := st.nextId }
  ({ primaryKeyId := st.nextId, entries := [e] }, { st with nextId := st.nextId + 1 })

/-- Modelled from the spec: Tink's `keyset.Manager.Rotate(template)` followed
by `Handle()` — append a freshly generated entry and make it primary, keeping
all previous entries. -/
def ksRotate (ks : Keyset) (t : KeyTemplate) (st : KmsState) : Keyset × KmsState :=
  let e : KeyEntry := { keyData := newKeyData t st.nextId, status := .enabled, keyId := st.nextId }
  ({ primaryKeyId := st.nextId, entries := ks.entries ++ [e] }, { st with nextId := st.nextId + 1 })

/-- `Create` (localkms.go lines 83-104): reject the empty key type, resolve
the template, generate a fresh keyset handle and store it; returns the new
key id and the handle. -/
def Create (st : KmsState) (kt : KeyType) : Except KmsError (String × Keyset) × KmsState :=
  if kt = "" then (.error (.invalidInput "failed to create new key, missing key type"), st)
  else
    match getKeyTemplate kt with
    | .error e => (.error e, st)
    | .ok t =>
      let (ks, st1) := newHandle t st
      match storeKeySet st1 ks with
      | (.ok kid, st2) => (.ok (kid, ks), st2)
      | (.error e, st2) => (.error e, st2)

/-- `Get` (localkms.go lines 110-112): fetch and decrypt the keyset handle. -/
def Get (st : KmsState) (keyID : String) : Except KmsError Keyset × KmsState :=
  getKeySet st keyID

/-- `Rotate` (localkms.go lines 121-156): fetch the keyset under `keyID`,
resolve the new template, rotate the in-memory keyset, then delete the old
record and store the rotated keyset under a new id — in that order, as in the
Go code. -/
def Rotate (st : KmsState) (kt : KeyType) (keyID : String) :
    Except KmsError (String × Keyset) × KmsState :=
  match getKeySet st keyID with
  | (.error e, st1) => (.error e, st1)
  | (.ok ks, st1) =>
    match getKeyTemplate kt with
    | .error e => (.error e, st1)
    | .ok t =>
      let (ks2, st2) := ksRotate ks t st1
      match storeDelete st2 keyID with
      | (.error e, st3) => (.error e, st3)
      | (.ok _, st3) =>
        match storeKeySet st3 ks2 with
        | (.error e, st4) => (.error e, st4)
        | (.ok newID, st4) => (.ok (newID, ks2), st4)

/-- Modelled from the spec: the per-entry step of Tink's `Handle.Public()` —
an asymmetric private key yields key data holding only its public component;
any other material has no public counterpart and makes `Public()` fail. -/
def privToPub (kd : KeyData) : Option KeyData :=
  if kd.material = .asymmetricPrivate then
    kd.pubValue.map (fun v =>
      { typeUrl := kd.typeUrl, material := .asymmetricPublic, value := v, pubValue := none })
  else none

/-- Map every entry of a keyset to its public counterpart, failing on the
first entry without one. -/
def mapPub : List KeyEntry → Except KmsError (List KeyEntry)
  | [] => .ok []
  | e :: rest =>
    match privToPub e.keyData with
    | none => .error (.invalidInput "keyset contains a non-private key")
    | some kd =>
      match mapPub rest with
      | .error er => .error er
      | .ok rest2 => .ok ({ e with keyData := kd } :: rest2)

/-- Modelled from the spec: Tink's `Handle.Public()` — the public keyset, or
an error when any entry's key has no public component (symmetric keysets). -/
def handlePublic (ks : Keyset) : Except KmsError Keyset :=
  match mapPub ks.entries with
  | .error e => .error e
  | .ok entries2 => .ok { ks with entries := entries2 }

/-- Modelled from the spec: Tink's `WriteWithNoSecrets` — serializes the
keyset (kept structurally as its key-data list) and refuses any keyset still
holding secret key material. -/
def writeWithNoSecrets (ks : Keyset) : Except KmsError (List KeyData) :=
  if ks.entries.all (fun e => e.keyData.material = .asymmetricPublic) then
    .ok (ks.entries.map (·.keyData))
  else .error (.invalidInput "exporting secret key material is forbidden")

/-- `ExportPubKeyBytes` (localkms.go lines 268-289): fetch the keyset, take
its public part, and serialize it with no secrets. -/
def ExportPubKeyBytes (st : KmsState) (id : String) :
    Except KmsError (List KeyData) × KmsState :=
  match getKeySet st id with
  | (.error e, st1) => (.error e, st1)
  | (.ok ks, st1) =>
    match handlePublic ks with
    | .error e => (.error e, st1)
    | .ok pubKs =>
      match writeWithNoSecrets pubKs with
      | .error e => (.error e, st1)
      | .ok bs => (.ok bs, st1)

/-- The dynamic value passed to `ImportPrivateKey`'s `interface{}` parameter:
the two supported private-key shapes plus representatives of everything else
the Go type switch sends to its default case. -/
inductive GoKeyValue where
  | ecdsaPrivateKey (curve : EllipticCurveType) (d : Nat) (pub : Nat)
  | ed25519PrivateKey (seed : Nat)
  | ecdsaPublicKey (curve : EllipticCurveType) (pub : Nat)
  | ed25519PublicKey (pub : Nat)
  | otherValue (tag : String)
  deriving DecidableEq, Repr

/-- Whether the dynamic value is one of the two shapes the type switch of
`ImportPrivateKey` accepts. -/
def isSupportedImportShape : GoKeyValue → Bool
  | .ecdsaPrivateKey _ _ _ => true
  | .ed25519PrivateKey _ => true
  | _ => false

/-- The curve an ECDSA key type claims, `none` for non-ECDSA key types. -/
def ecdsaKeyTypeCurve (kt : KeyType) : Option EllipticCurveType :=
  if kt = ECDSAP256TypeDER ∨ kt = ECDSAP256TypeIEEEP1363 then some .NIST_P256
  else if kt = ECDSAP384TypeDER ∨ kt = ECDSAP384TypeIEEEP1363 then some .NIST_P384
  else if kt = ECDSAP521TypeDER ∨ kt = ECDSAP521TypeIEEEP1363 then some .NIST_P521
  else none

/-- Modelled from the spec: `importECDSAKey` (repository file not under
`src/`) — validate that the key's curve matches the claimed ECDSA key type,
build a one-entry private keyset, seal it and write it to the store honouring
a caller-supplied id. -/
def importECDSAKey (st : KmsState) (curve : EllipticCurveType) (d pub : Nat) (kt : KeyType)
    (optKeyID : Option String) : Except KmsError (String × Keyset) × KmsState :=
  match ecdsaKeyTypeCurve kt with
  | none => (.error (.invalidInput "import ECDSA key: invalid key type"), st)
  | some c =>
    if c = curve then
      let e : KeyEntry :=
        { keyData := { typeUrl := ecdsaPrivateKeyTypeURL, material := .asymmetricPrivate,
                       value := d, pubValue := some pub }
          status := .enabled, keyId := st.nextId }
      let ks : Keyset := { primaryKeyId := st.nextId, entries := [e] }
      let st1 := { st with nextId := st.nextId + 1 }
      match writeToStore st1 (.sealed ks) optKeyID with
      | (.ok kid, st2) => (.ok (kid, ks), st2)
      | (.error er, st2) => (.error er, st2)
    else (.error (.invalidInput "import ECDSA key: curve does not match key type"), st)

/-- Modelled from the spec: `importEd25519Key` — the key type must be
Ed25519; build a one-entry private keyset and write it like the ECDSA path. -/
def importEd25519Key (st : KmsState) (seed : Nat) (kt : KeyType) (optKeyID : Option String) :
    Except KmsError (String × Keyset) × KmsState :=
  if kt = ED25519Type then
    let e : KeyEntry :=
      { keyData := { typeUrl := "type.googleapis.com/google.crypto.tink.Ed25519PrivateKey",
                     material := .asymmetricPrivate, value := seed, pubValue := some (seed + 1) }
        status := .enabled, keyId := st.nextId }
    let ks : Keyset := { primaryKeyId := st.nextId, entries := [e] }
    let st1 := { st with nextId := st.nextId + 1 }
    match writeToStore st1 (.sealed ks) optKeyID with
    | (.ok kid, st2) => (.ok (kid, ks), st2)
    | (.error er, st2) => (.error er, st2)
  else (.error (.invalidInput "import Ed25519 key: invalid key type"), st)

/-- `ImportPrivateKey` (localkms.go lines 309-319): the type switch over the
dynamic value — only `*ecdsa.PrivateKey` and `ed25519.PrivateKey` are
accepted; everything else hits the default error. -/
def ImportPrivateKey (st : KmsState) (privKey : GoKeyValue) (kt : KeyType)
    (optKeyID : Option String) : Except KmsError (String × Keyset) × KmsState :=
  match privKey with
  | .ecdsaPrivateKey curve d pub => importECDSAKey st curve d pub kt optKeyID
  | .ed25519PrivateKey seed => importEd25519Key st seed kt optKeyID
  | _ => (.error (.invalidInput "import private key does not support this key type or key is public"), st)

/-- Modelled from the spec: `publicKeyBytesToHandle` (repository file not
under `src/`) — build an ephemeral one-entry public keyset purely from the
supplied public key bytes and key type; fails for unrecognized or
non-asymmetric key types. -/
def publicKeyBytesToHandle (pubKey : Nat) (kt : KeyType) : Except KmsError Keyset :=
  match getKeyTemplate kt with
  | .error e => .error e
  | .ok t =>
    if t.format.materialType = .asymmetricPrivate then
      .ok { primaryKeyId := 0
            entries := [{ keyData := { typeUrl := t.typeUrl, material := .asymmetricPublic,
                                       value := pubKey, pubValue := none }
                          status := .enabled, keyId := 0 }] }
    else .error (.invalidInput "not an asymmetric key type")

/-- `PubKeyBytesToHandle` (localkms.go lines 295-297): delegates to
`publicKeyBytesToHandle`; the state is passed through untouched — the Go
method never accesses the store. -/
def PubKeyBytesToHandle (st : KmsState) (pubKey : Nat) (kt : KeyType) :
    Except KmsError Keyset × KmsState :=
  (publicKeyBytesToHandle pubKey kt, st)

/-- Index of the first occurrence of an event in a trace. -/
def idxOfEvent (e : StoreEvent) : List StoreEvent → Option Nat
  | [] => none
  | x :: rest => if x = e then some 0 else (idxOfEvent e rest).map (· + 1)

/-- `true` when a `put` of `newId` occurs in the trace strictly before a
`del` of `oldId`. -/
def putBeforeDelete (evs : List StoreEvent) (newId oldId : String) : Bool :=
  match idxOfEvent (.put newId) evs, idxOfEvent (.del oldId) evs with
  | some i, some j => i < j
  | _, _ => false

/-- `true` when a `del` of `oldId` occurs in the trace strictly before a
`put` of `newId`. -/
def deleteBeforePut (evs : List StoreEvent) (oldId newId : String) : Bool :=
  match idxOfEvent (.del oldId) evs, idxOfEvent (.put newId) evs with
  | some i, some j => i < j
  | _, _ => false

/-- Whether an `Except` result is an error. -/
def isErr {α : Type} (r : Except KmsError α) : Bool :=
  match r with
  | .error _ => true
  | .ok _ => false

/-! Concrete fixtures used by witnesses and counterexamples. -/

/-- A stored one-entry Ed25519-style private keyset. -/
def ksFixture : Keyset :=
  { primaryKeyId := 100
    entries := [{ keyData := { typeUrl := "type.googleapis.com/google.crypto.tink.Ed25519PrivateKey",
                               material := .asymmetricPrivate, value := 5, pubValue := some 6 }
                  status := .enabled, keyId := 100 }] }

/-- A stored one-entry AES-GCM (symmetric) keyset. -/
def ksSymFixture : Keyset :=
  { primaryKeyId := 7
    entries := [{ keyData := { typeUrl := "type.googleapis.com/google.crypto.tink.AesGcmKey",
                               material := .symmetric, value := 9, pubValue := none }
                  status := .enabled, keyId := 7 }] }

/-- A healthy state holding `ksFixture` under id "k1". -/
def stFixture : KmsState := { store := [("k1", .sealed ksFixture)] }

/-- Like `stFixture` but with the store's `Put` failing. -/
def stPutFail : KmsState := { store := [("k1", .sealed ksFixture)], failPut := true }

/-- A state holding the symmetric keyset under id "s1" and `ksFixture` under
"k1". -/
def stMixed : KmsState := { store := [("s1", .sealed ksSymFixture), ("k1", .sealed ksFixture)] }

/-- An empty-store state. -/
def stEmpty : KmsState := { store := [] }

/-! Helper lemmas about the store model. -/

theorem find?_removeRecord (s : List (String × Blob)) (id : String) :
    (removeRecord s id).find? (fun p => p.1 = id) = none := by
  induction s with
  | nil => rfl
  | cons p rest ih =>
    by_cases h : p.1 = id
    · simp [removeRecord, h] at ih ⊢
    · simp [removeRecord, List.find?, h] at ih ⊢

theorem find?_append_of_none {α : Type} (l1 l2 : List α) (f : α → Bool)
    (h : l1.find? f = none) : (l1 ++ l2).find? f = l2.find? f := by
  induction l1 with
  | nil => rfl
  | cons a l ih =>
    cases hf : f a with
    | true => simp [List.find?, hf] at h
    | false =>
      simp only [List.find?, hf] at h
      simpa [List.find?, hf] using ih h

theorem find?_filter_none {α : Type} (l : List α) (f g : α → Bool)
    (h : l.find? f = none) : (l.filter g).find? f = none := by
  induction l with
  | nil => rfl
  | cons a rest ih =>
    cases hf : f a with
    | true => simp [List.find?, hf] at h
    | false =>
      simp only [List.find?, hf] at h
      by_cases hg : g a
      · simpa [List.filter, hg, List.find?, hf] using ih h
      · simpa [List.filter, hg] using ih h

theorem logEvent_store (st : KmsState) (e : StoreEvent) : (logEvent st e).store = st.store := rfl

/-! Helper lemmas about the template resolver. -/

theorem getKeyTemplate_unrecognized (kt : KeyType) (h : kt ∉ recognizedKeyTypes) :
    getKeyTemplate kt = .error (.invalidInput "key type unrecognized") := by
  simp only [recognizedKeyTypes, List.mem_cons, List.not_mem_nil, or_false, not_or] at h
  obtain ⟨h1, h2, h3, h4, h5, h6, h7, h8, h9, h10, h11, h12, h13, h14, h15, h16, h17, h18, h19⟩ := h
  simp [getKeyTemplate, h1, h2, h3, h4, h5, h6, h7, h8, h9, h10, h11, h12, h13, h14, h15, h16,
    h17, h18, h19]

theorem getKeyTemplate_recognized (kt : KeyType) (h : kt ∈ recognizedKeyTypes) :
    isErr (getKeyTemplate kt) = false := by
  fin_cases h <;> rfl

/-- C4 — The key-template resolver is a deterministic total function over the
recognized key types and rejects everything else (the empty key type
included) with the "key type unrecognized" error; `Create` on an empty or
unrecognized key type returns an error and leaves the state untouched (empty
id and nil handle correspond to the error result). -/
theorem getKeyTemplate_total_resolver :
    (∀ kt, kt ∈ recognizedKeyTypes → isErr (getKeyTemplate kt) = false) ∧
    (∀ kt, kt ∉ recognizedKeyTypes →
      getKeyTemplate kt = .error (.invalidInput "key type unrecognized")) ∧
    (getKeyTemplate "" = .error (.invalidInput "key type unrecognized")) ∧
    (∀ st kt, kt = "" ∨ kt ∉ recognizedKeyTypes →
      isErr (Create st kt).1 = true ∧ (Create st kt).2 = st) := by
  refine ⟨getKeyTemplate_recognized, getKeyTemplate_unrecognized, by rfl, ?_⟩
  intro st kt h
  by_cases hk : kt = ""
  · subst hk
    exact ⟨rfl, rfl⟩
  · rcases h with h | h
    · exact absurd h hk
    · have ht := getKeyTemplate_unrecognized kt h
      simp [Create, hk, ht, isErr]

/-- C4 witness: the resolver accepts AES-256-GCM, rejects the empty and an
unrecognized key type, and `Create` on the unrecognized type errs with the
state untouched. -/
theorem getKeyTemplate_total_resolver_witness :
    AES256GCMType ∈ recognizedKeyTypes ∧ isErr (getKeyTemplate AES256GCMType) = false ∧
    ("bogus" ∉ recognizedKeyTypes ∧
      getKeyTemplate "bogus" = .error (.invalidInput "key type unrecognized")) ∧
    (isErr (Create stEmpty "bogus").1 = true ∧ (Create stEmpty "bogus").2 = stEmpty) :=
  ⟨by decide, getKeyTemplate_total_resolver.1 AES256GCMType (by decide),
   ⟨by decide, getKeyTemplate_total_resolver.2.1 "bogus" (by decide)⟩,
   getKeyTemplate_total_resolver.2.2.2 stEmpty "bogus" (Or.inr (by decide))⟩

/-- C5 — The three IEEE-P1363 ECDSA key types resolve to templates with
IEEE_P1363 signature encoding, RAW output prefix and the matching
curve/hash pair, while the three DER key types resolve to DER-encoding
templates. -/
theorem ecdsa_ieee_p1363_and_der_templates :
    getKeyTemplate ECDSAP256TypeIEEEP1363 =
      .ok { typeUrl := ecdsaPrivateKeyTypeURL
            format := .ecdsa { hashType := .SHA256, curve := .NIST_P256, encoding := .IEEE_P1363 }
            outputPrefixType := .RAW } ∧
    getKeyTemplate ECDSAP384TypeIEEEP1363 =
      .ok { typeUrl := ecdsaPrivateKeyTypeURL
            format := .ecdsa { hashType := .SHA384, curve := .NIST_P384, encoding := .IEEE_P1363 }
            outputPrefixType := .RAW } ∧
    getKeyTemplate ECDSAP521TypeIEEEP1363 =
      .ok { typeUrl := ecdsaPrivateKeyTypeURL
            format := .ecdsa { hashType := .SHA512, curve := .NIST_P521, encoding := .IEEE_P1363 }
            outputPrefixType := .RAW } ∧
    getKeyTemplate ECDSAP256TypeDER =
      .ok { typeUrl := ecdsaPrivateKeyTypeURL
            format := .ecdsa { hashType := .SHA256, curve := .NIST_P256, encoding := .DER }
            outputPrefixType := .RAW } ∧
    getKeyTemplate ECDSAP384TypeDER =
      .ok { typeUrl := ecdsaPrivateKeyTypeURL
            format := .ecdsa { hashType := .SHA384, curve := .NIST_P384, encoding := .DER }
            outputPrefixType := .RAW } ∧
    getKeyTemplate ECDSAP521TypeDER =
      .ok { typeUrl := ecdsaPrivateKeyTypeURL
            format := .ecdsa { hashType := .SHA512, curve := .NIST_P521, encoding := .DER }
            outputPrefixType := .RAW } :=
  ⟨rfl, rfl, rfl, rfl, rfl, rfl⟩

/-- C7 — `ImportPrivateKey` on any dynamic value that is neither an
`*ecdsa.PrivateKey` nor an `ed25519.PrivateKey` returns the "does not support
this key type or key is public" error for every claimed key type, with the
state untouched (the error result corresponds to the empty id and nil
handle). -/
theorem ImportPrivateKey_unsupported_shape :
    ∀ (st : KmsState) (pk : GoKeyValue) (kt : KeyType) (optKeyID : Option String),
      isSupportedImportShape pk = false →
      (ImportPrivateKey st pk kt optKeyID).1 =
        .error (.invalidInput "import private key does not support this key type or key is public") ∧
      (ImportPrivateKey st pk kt optKeyID).2 = st := by
  intro st pk kt optKeyID h
  cases pk <;> simp_all [ImportPrivateKey, isSupportedImportShape]

/-- C7 witness: importing an ECDSA public key fails with the unsupported
error. -/
theorem ImportPrivateKey_unsupported_shape_witness :
    isSupportedImportShape (.ecdsaPublicKey .NIST_P256 3) = false ∧
    (ImportPrivateKey stEmpty (.ecdsaPublicKey .NIST_P256 3) ECDSAP256TypeDER none).1 =
      .error (.invalidInput "import private key does not support this key type or key is public") :=
  ⟨rfl, (ImportPrivateKey_unsupported_shape stEmpty (.ecdsaPublicKey .NIST_P256 3)
    ECDSAP256TypeDER none rfl).1⟩

/-- C8 — `Get` never serves a cached keyset: its result is determined solely
by the record currently under the id (so two states agreeing on that record
agree on the result), an absent record yields the not-found error, and after
a successful store delete a subsequent `Get` of that id is a not-found
error. -/
theorem Get_rereads_store :
    ∀ (st : KmsState) (id : String),
      (storeLookup st id = none → (Get st id).1 = .error (.notFound id)) ∧
      (∀ st2, storeLookup st2 id = storeLookup st id → (Get st2 id).1 = (Get st id).1) ∧
      (st.failDelete = false → (Get (storeDelete st id).2 id).1 = .error (.notFound id)) := by
  intro st id
  refine ⟨?_, ?_, ?_⟩
  · intro h
    simp [Get, getKeySet, storeGet, h]
  · intro st2 h
    cases hv : storeLookup st id with
    | none => simp [Get, getKeySet, storeGet, hv, h.trans hv]
    | some b => cases b <;> simp [Get, getKeySet, storeGet, hv, h.trans hv]
  · intro hfd
    have hnone : storeLookup (storeDelete st id).2 id = none := by
      simp [storeDelete, hfd, storeLookup, logEvent, find?_removeRecord]
    simp [Get, getKeySet, storeGet, hnone]

/-- C8 witness: deleting the record under "k1" makes `Get "k1"` a not-found
error, and an id that was never stored is not found. -/
theorem Get_rereads_store_witness :
    (storeLookup stEmpty "k2" = none ∧ (Get stEmpty "k2").1 = .error (.notFound "k2")) ∧
    (stFixture.failDelete = false ∧
      (Get (storeDelete stFixture "k1").2 "k1").1 = .error (.notFound "k1")) :=
  ⟨⟨rfl, (Get_rereads_store stEmpty "k2").1 rfl⟩,
   ⟨rfl, (Get_rereads_store stFixture "k1").2.2 rfl⟩⟩

/-- C9 — `PubKeyBytesToHandle` performs no storage I/O: the state (store
contents and event trace included) is returned unchanged, and the resulting
handle is a function of the supplied public key bytes and key type alone. -/
theorem PubKeyBytesToHandle_no_store_io :
    ∀ (st : KmsState) (pubKey : Nat) (kt : KeyType),
      (PubKeyBytesToHandle st pubKey kt).2 = st ∧
      (∀ st2, (PubKeyBytesToHandle st2 pubKey kt).1 = (PubKeyBytesToHandle st pubKey kt).1) :=
  fun _ _ _ => ⟨rfl, fun _ => rfl⟩

/-- C10 — If `Rotate` fails before reaching its store-delete step (the keyset
cannot be fetched or decrypted, or the key type is unrecognized), the store
is unchanged: the record under the key id is still present and nothing was
added. -/
theorem Rotate_pre_delete_failure_frame :
    ∀ (st : KmsState) (kt : KeyType) (kid : String),
      isErr (getKeySet st kid).1 = true ∨ isErr (getKeyTemplate kt) = true →
      isErr (Rotate st kt kid).1 = true ∧ (Rotate st kt kid).2.store = st.store := by
  intro st kt kid h
  cases hv : storeLookup st kid with
  | none => simp [Rotate, getKeySet, storeGet, hv, isErr, logEvent]
  | some b =>
    cases b with
    | corrupt => simp [Rotate, getKeySet, storeGet, hv, isErr, logEvent]
    | sealed ks =>
      have herr : isErr (getKeyTemplate kt) = true := by
        rcases h with h | h
        · simp [getKeySet, storeGet, hv, isErr] at h
        · exact h
      cases ht : getKeyTemplate kt with
      | ok t => simp [ht, isErr] at herr
      | error e => simp [Rotate, getKeySet, storeGet, hv, ht, isErr, logEvent]

/-- C10 witness: rotating an id that was never stored fails and leaves the
store unchanged. -/
theorem Rotate_pre_delete_failure_frame_witness :
    isErr (getKeySet stEmpty "nope").1 = true ∧
    isErr (Rotate stEmpty ED25519Type "nope").1 = true ∧
    (Rotate stEmpty ED25519Type "nope").2.store = stEmpty.store :=
  ⟨rfl, (Rotate_pre_delete_failure_frame stEmpty ED25519Type "nope" (Or.inl rfl)).1,
   (Rotate_pre_delete_failure_frame stEmpty ED25519Type "nope" (Or.inl rfl)).2⟩

/-! Helper lemmas about the public-export path. -/

theorem privToPub_spec (kd kd2 : KeyData) (h : privToPub kd = some kd2) :
    kd2.material = .asymmetricPublic ∧ kd.pubValue = some kd2.value := by
  unfold privToPub at h
  by_cases hm : kd.material = .asymmetricPrivate
  · simp only [hm, if_pos] at h
    rw [Option.map_eq_some'] at h
    obtain ⟨v, hv, hf⟩ := h
    subst hf
    exact ⟨rfl, hv⟩
  · simp [hm] at h

theorem privToPub_symmetric (kd : KeyData) (h : kd.material = .symmetric) :
    privToPub kd = none := by
  simp [privToPub, h]

theorem mapPub_spec (l : List KeyEntry) :
    ∀ l2, mapPub l = .ok l2 →
      ∀ e2 ∈ l2, e2.keyData.material = .asymmetricPublic ∧
        ∃ e ∈ l, e.keyData.pubValue = some e2.keyData.value := by
  induction l with
  | nil =>
    intro l2 h e2 he2
    simp only [mapPub] at h
    cases h
    simp at he2
  | cons e rest ih =>
    intro l2 h e2 he2
    unfold mapPub at h
    cases hp : privToPub e.keyData with
    | none => simp [hp] at h
    | some kd =>
      simp only [hp] at h
      cases hr : mapPub rest with
      | error er => simp [hr] at h
      | ok rest2 =>
        simp only [hr] at h
        cases h
        rcases List.mem_cons.mp he2 with he2 | he2
        · subst he2
          obtain ⟨hmat, hval⟩ := privToPub_spec e.keyData kd hp
          exact ⟨hmat, e, List.mem_cons_self e rest, hval⟩
        · obtain ⟨hmat, e1, he1, hval⟩ := ih rest2 hr e2 he2
          exact ⟨hmat, e1, List.mem_cons_of_mem e he1, hval⟩

theorem mapPub_err_of_mem (l : List KeyEntry) (e : KeyEntry) (he : e ∈ l)
    (h : privToPub e.keyData = none) : isErr (mapPub l) = true := by
  induction l with
  | nil => cases he
  | cons a rest ih =>
    rcases List.mem_cons.mp he with rfl | he2
    · simp [mapPub, h, isErr]
    · cases hp : privToPub a.keyData with
      | none => simp [mapPub, hp, isErr]
      | some kd =>
        have hr := ih he2
        cases hm : mapPub rest with
        | error er => simp [mapPub, hp, hm, isErr]
        | ok rest2 => simp [hm, isErr] at hr

/-- C3 — `ExportPubKeyBytes` on a keyset whose primary key is symmetric
fails, and whenever it does return bytes, every serialized key in them is
public material whose value is the public component of one of the stored
entries — no private key bytes are emitted. -/
theorem ExportPubKeyBytes_public_only :
    ∀ (st : KmsState) (id : String) (ks : Keyset),
      storeLookup st id = some (.sealed ks) →
      ((∀ e, ks.primaryEntry = some e → e.keyData.material = .symmetric →
          isErr (ExportPubKeyBytes st id).1 = true) ∧
       (∀ out, (ExportPubKeyBytes st id).1 = .ok out →
          ∀ kd ∈ out, kd.material = .asymmetricPublic ∧
            ∃ e ∈ ks.entries, e.keyData.pubValue = some kd.value)) := by
  intro st id ks hlook
  have hget : getKeySet st id = (.ok ks, logEvent st (.get id)) := by
    simp [getKeySet, storeGet, hlook]
  constructor
  · intro e hpe hsym
    have hmem : e ∈ ks.entries := List.mem_of_find?_eq_some hpe
    have herr := mapPub_err_of_mem ks.entries e hmem (privToPub_symmetric e.keyData hsym)
    cases hm : mapPub ks.entries with
    | ok l2 => simp [hm, isErr] at herr
    | error er => simp [ExportPubKeyBytes, hget, handlePublic, hm, isErr]
  · intro out hout kd hkd
    cases hm : mapPub ks.entries with
    | error er => simp [ExportPubKeyBytes, hget, handlePublic, hm] at hout
    | ok l2 =>
      cases hall : l2.all (fun e => e.keyData.material = KeyMaterialType.asymmetricPublic) with
      | false =>
        simp [ExportPubKeyBytes, hget, handlePublic, hm, writeWithNoSecrets, hall] at hout
      | true =>
        simp only [ExportPubKeyBytes, hget, handlePublic, hm, writeWithNoSecrets, hall,
          if_true, Except.ok.injEq] at hout
        subst hout
        obtain ⟨e2, he2, hkd2⟩ := List.mem_map.mp hkd
        obtain ⟨hmat, e1, he1, hval⟩ := mapPub_spec ks.entries l2 hm e2 he2
        rw [hkd2] at hmat hval
        exact ⟨hmat, e1, he1, hval⟩

/-- C3 witness: exporting the symmetric keyset under "s1" fails; the export
of the Ed25519 keyset under "k1" contains only public material drawn from
the stored entries' public components. -/
theorem ExportPubKeyBytes_public_only_witness :
    (storeLookup stMixed "s1" = some (.sealed ksSymFixture) ∧
      isErr (ExportPubKeyBytes stMixed "s1").1 = true) ∧
    (storeLookup stMixed "k1" = some (.sealed ksFixture) ∧
      ∀ kd ∈ [({ typeUrl := "type.googleapis.com/google.crypto.tink.Ed25519PrivateKey",
                 material := .asymmetricPublic, value := 6, pubValue := none } : KeyData)],
        kd.material = .asymmetricPublic ∧
          ∃ e ∈ ksFixture.entries, e.keyData.pubValue = some kd.value) :=
  ⟨⟨rfl, (ExportPubKeyBytes_public_only stMixed "s1" ksSymFixture rfl).1
      { keyData := { typeUrl := "type.googleapis.com/google.crypto.tink.AesGcmKey",
                     material := .symmetric, value := 9, pubValue := none }
        status := .enabled, keyId := 7 } rfl rfl⟩,
   ⟨rfl, (ExportPubKeyBytes_public_only stMixed "k1" ksFixture rfl).2 _ rfl⟩⟩

/-- C6 — Importing under a caller-supplied key id that is already occupied
fails with the "ID already exists" conflict and leaves the store unchanged
(no overwrite), on the ECDSA path, the Ed25519 path, and at the
`writeToStore` level for any payload. (`Create` accepts no options in this
code, so no caller-supplied id can reach its store write.) -/
theorem ImportPrivateKey_existing_id_conflict :
    ∀ (st : KmsState) (c : EllipticCurveType) (d pub : Nat) (kt : KeyType) (kid : String)
      (b : Blob),
      ecdsaKeyTypeCurve kt = some c →
      storeLookup st kid = some b →
      ((ImportPrivateKey st (.ecdsaPrivateKey c d pub) kt (some kid)).1 =
          .error (.conflict kid) ∧
        (ImportPrivateKey st (.ecdsaPrivateKey c d pub) kt (some kid)).2.store = st.store) ∧
      (∀ seed, (ImportPrivateKey st (.ed25519PrivateKey seed) ED25519Type (some kid)).1 =
          .error (.conflict kid) ∧
        (ImportPrivateKey st (.ed25519PrivateKey seed) ED25519Type (some kid)).2.store =
          st.store) ∧
      (∀ b2 : Blob, (writeToStore st b2 (some kid)).1 = .error (.conflict kid) ∧
        (writeToStore st b2 (some kid)).2.store = st.store) := by
  intro st c d pub kt kid b hkt hlook
  have hlook2 : storeLookup { st with nextId := st.nextId + 1 } kid = some b := hlook
  refine ⟨?_, ?_, ?_⟩
  · constructor <;>
      simp [ImportPrivateKey, importECDSAKey, hkt, writeToStore, storeGet, hlook2, logEvent]
  · intro seed
    constructor <;>
      simp [ImportPrivateKey, importEd25519Key, ED25519Type, writeToStore, storeGet, hlook2,
        logEvent]
  · intro b2
    constructor <;> simp [writeToStore, storeGet, hlook, logEvent]

/-- C6 witness: importing an ECDSA P-256 key under the occupied id "k1"
fails with the conflict error and the store is unchanged. -/
theorem ImportPrivateKey_existing_id_conflict_witness :
    ecdsaKeyTypeCurve ECDSAP256TypeDER = some .NIST_P256 ∧
    storeLookup stFixture "k1" = some (.sealed ksFixture) ∧
    (ImportPrivateKey stFixture (.ecdsaPrivateKey .NIST_P256 11 12) ECDSAP256TypeDER
        (some "k1")).1 = .error (.conflict "k1") ∧
    (ImportPrivateKey stFixture (.ecdsaPrivateKey .NIST_P256 11 12) ECDSAP256TypeDER
        (some "k1")).2.store = stFixture.store :=
  ⟨rfl, rfl,
   (ImportPrivateKey_existing_id_conflict stFixture .NIST_P256 11 12 ECDSAP256TypeDER "k1"
      (.sealed ksFixture) rfl rfl).1.1,
   (ImportPrivateKey_existing_id_conflict stFixture .NIST_P256 11 12 ECDSAP256TypeDER "k1"
      (.sealed ksFixture) rfl rfl).1.2⟩

theorem find?_removeRecord_other (l : List (String × Blob)) (id other : String)
    (h : l.find? (fun p => p.1 = id) = none) :
    (removeRecord l other).find? (fun p => p.1 = id) = none := by
  induction l with
  | nil => rfl
  | cons p rest ih =>
    by_cases h2 : p.1 = id
    · simp [List.find?, h2] at h
    · simp only [List.find?, decide_eq_false h2] at h
      by_cases h3 : p.1 = other
      · simpa [removeRecord, h3] using ih h
      · simpa [removeRecord, List.find?, h2, h3] using ih h

/-- C1 counterexample — on a state holding a keyset under "k1", `Rotate` with
a recognized key type succeeds, but its store trace is get, then delete of
the old id, then put of the new id: the put does NOT precede the delete, so
the claimed put-then-delete order is false on the code. -/
theorem Rotate_put_before_delete_refuted :
    isErr (Rotate stFixture ED25519Type "k1").1 = false ∧
    (Rotate stFixture ED25519Type "k1").2.events =
      [.get "k1", .del "k1", .put "gen_1"] ∧
    putBeforeDelete (Rotate stFixture ED25519Type "k1").2.events "gen_1" "k1" = false ∧
    deleteBeforePut (Rotate stFixture ED25519Type "k1").2.events "k1" "gen_1" = true :=
  ⟨rfl, rfl, rfl, rfl⟩

/-- C1 (amended) — For every stored keyID and recognized key type, a
successful `Rotate` performs its store updates in the order the code states:
it first deletes the old id's record and only then stores the updated keyset
under a freshly generated new id, before returning (new id, updated handle);
afterwards the new id holds the updated keyset and the old id's record is
gone. -/
theorem Rotate_delete_then_put :
    ∀ (st : KmsState) (kt : KeyType) (kid : String) (ks : Keyset) (t : KeyTemplate),
      st.events = [] →
      storeLookup st kid = some (.sealed ks) →
      getKeyTemplate kt = .ok t →
      st.failDelete = false →
      st.failPut = false →
      ∃ newID ks2,
        (Rotate st kt kid).1 = .ok (newID, ks2) ∧
        deleteBeforePut (Rotate st kt kid).2.events kid newID = true ∧
        storeLookup (Rotate st kt kid).2 newID = some (.sealed ks2) ∧
        (¬ kid = newID → storeLookup (Rotate st kt kid).2 kid = none) := by
  intro st kt kid ks t hev hlook ht hfd hfp
  have h1 : getKeySet st kid = (.ok ks, logEvent st (.get kid)) := by
    simp [getKeySet, storeGet, hlook]
  simp only [Rotate, h1, ht, ksRotate, storeDelete, storeKeySet, writeToStore, storePut,
    logEvent, hev, hfd, hfp, Bool.false_eq_true, if_false, List.nil_append, List.cons_append,
    List.append_nil]
  refine ⟨_, _, rfl, ?_, ?_, ?_⟩
  · simp [deleteBeforePut, idxOfEvent]
  · simp only [storeLookup]
    rw [find?_append_of_none _ _ _ (find?_removeRecord _ _)]
    simp [List.find?]
  · intro hne
    simp only [storeLookup]
    rw [find?_append_of_none _ _ _ (find?_removeRecord_other _ _ _ (find?_removeRecord _ _))]
    simp [List.find?, Ne.symm hne]

/-- C1 witness: on the fixture state the amended order holds — delete of
"k1" precedes the put of the new id, which then holds the rotated keyset
while "k1" is gone. -/
theorem Rotate_delete_then_put_witness :
    (stFixture.events = [] ∧ storeLookup stFixture "k1" = some (.sealed ksFixture) ∧
      getKeyTemplate ED25519Type = .ok ED25519KeyWithoutPrefixTemplate ∧
      stFixture.failDelete = false ∧ stFixture.failPut = false) ∧
    ∃ newID ks2,
      (Rotate stFixture ED25519Type "k1").1 = .ok (newID, ks2) ∧
      deleteBeforePut (Rotate stFixture ED25519Type "k1").2.events "k1" newID = true ∧
      storeLookup (Rotate stFixture ED25519Type "k1").2 newID = some (.sealed ks2) ∧
      (¬ "k1" = newID → storeLookup (Rotate stFixture ED25519Type "k1").2 "k1" = none) :=
  ⟨⟨rfl, rfl, rfl, rfl, rfl⟩,
   Rotate_delete_then_put stFixture ED25519Type "k1" ksFixture
     ED25519KeyWithoutPrefixTemplate rfl rfl rfl rfl rfl⟩

/-- C2 counterexample — on a state holding a keyset under "k1" whose store
`Put` fails, `Rotate` returns an error, yet the record previously held under
"k1" is no longer present: the store is left empty, refuting "if Rotate
returns an error then the store is unchanged". -/
theorem Rotate_error_store_unchanged_refuted :
    isErr (Rotate stPutFail ED25519Type "k1").1 = true ∧
    storeLookup stPutFail "k1" = some (.sealed ksFixture) ∧
    storeLookup (Rotate stPutFail ED25519Type "k1").2 "k1" = none ∧
    (Rotate stPutFail ED25519Type "k1").2.store = [] :=
  ⟨rfl, rfl, rfl, rfl⟩

/-- C2 (amended) — If `Rotate` returns an error, the store is either
unchanged (any failure before its store-delete step, or a failing delete),
or — when the final store-put fails after the delete already succeeded —
left with exactly the old id's record removed and no new record added. -/
theorem Rotate_error_store_unchanged_or_delete_only :
    ∀ (st : KmsState) (kt : KeyType) (kid : String),
      isErr (Rotate st kt kid).1 = true →
      (Rotate st kt kid).2.store = st.store ∨
      (Rotate st kt kid).2.store = removeRecord st.store kid := by
  intro st kt kid h
  cases hv : storeLookup st kid with
  | none => left; simp [Rotate, getKeySet, storeGet, hv, logEvent]
  | some b =>
    cases b with
    | corrupt => left; simp [Rotate, getKeySet, storeGet, hv, logEvent]
    | sealed ks =>
      cases ht : getKeyTemplate kt with
      | error e => left; simp [Rotate, getKeySet, storeGet, hv, ht, logEvent]
      | ok t =>
        cases hfd : st.failDelete with
        | true =>
          left
          simp [Rotate, getKeySet, storeGet, hv, ht, ksRotate, storeDelete, logEvent, hfd]
        | false =>
          cases hfp : st.failPut with
          | true =>
            right
            simp [Rotate, getKeySet, storeGet, hv, ht, ksRotate, storeDelete, storeKeySet,
              writeToStore, storePut, genId, logEvent, hfd, hfp]
          | false =>
            exfalso
            simp [Rotate, getKeySet, storeGet, hv, ht, ksRotate, storeDelete, storeKeySet,
              writeToStore, storePut, genId, logEvent, hfd, hfp, isErr] at h

/-- C2 witness: with the failing-put store, `Rotate` errs and the resulting
store is the fixture store with "k1"'s record removed (the delete-only
outcome). -/
theorem Rotate_error_store_unchanged_or_delete_only_witness :
    isErr (Rotate stPutFail ED25519Type "k1").1 = true ∧
    ((Rotate stPutFail ED25519Type "k1").2.store = stPutFail.store ∨
      (Rotate stPutFail ED25519Type "k1").2.store = removeRecord stPutFail.store "k1") :=
  ⟨rfl, Rotate_error_store_unchanged_or_delete_only stPutFail ED25519Type "k1" rfl⟩

end LocalKms
